import Mathlib

/-!
Verification of `z5/filesystem/factory.hxx` (calgray/z5): the metadata-driven
type-dispatch and open/create protocol for chunked datasets.

The factory header is embedded shallowly:
* `Datatype` models the 22 declared enumerators of `types::Datatype`
  consumed by the two `switch` statements (the enum declaration itself lives
  in `types.hxx`, outside the embedded sources; the spec fixes the closed set
  of 22 tags).
* `DatasetMetadata.dtype` is modelled as the *underlying integer value* of
  the enum, because a C++ enum object may hold values outside the declared
  enumerators and the `switch` statements in the source have no `default`
  branch, so that possibility is observable (a null `unique_ptr` is
  returned).
* Storage effects (existence check, node creation, metadata read/write) are
  modelled by explicit state passing over a `Store` plus an event trace, so
  ordering and absence of effects are provable.
* `readMetadata` / `writeMetadata` and `relativeImpl` live in
  `metadata.hxx` / `util.hxx`, outside the embedded sources; they are
  modelled from the spec where noted.
-/

namespace Z5

/-- Path of a node in the storage hierarchy, as a list of components. -/
abbrev Path := List String

/-- The 22 declared element-type tags of `types::Datatype`:
fixed-width signed/unsigned integers, 32/64-bit floats, 64/128-bit complex,
and ten fixed-length-unicode variants of widths 1 through 10. -/
inductive Datatype
  | int8 | int16 | int32 | int64
  | uint8 | uint16 | uint32 | uint64
  | float32 | float64
  | complex64 | complex128
  | unicode1 | unicode2 | unicode3 | unicode4 | unicode5
  | unicode6 | unicode7 | unicode8 | unicode9 | unicode10
deriving DecidableEq, Fintype

/-- Underlying integer value of each enumerator of `types::Datatype`. -/
def Datatype.toCode : Datatype → Nat
  | .int8 => 0
  | .int16 => 1
  | .int32 => 2
  | .int64 => 3
  | .uint8 => 4
  | .uint16 => 5
  | .uint32 => 6
  | .uint64 => 7
  | .float32 => 8
  | .float64 => 9
  | .complex64 => 10
  | .complex128 => 11
  | .unicode1 => 12
  | .unicode2 => 13
  | .unicode3 => 14
  | .unicode4 => 15
  | .unicode5 => 16
  | .unicode6 => 17
  | .unicode7 => 18
  | .unicode8 => 19
  | .unicode9 => 20
  | .unicode10 => 21

/-- Concrete C++ element representations that `Dataset<T>` is instantiated
with in the factory's `switch` statements. `utf32Array n` stands for
`z5::types::UTF32Array<n>`, a fixed-size array of `n` UTF-32 code units. -/
inductive ElemRepr
  | cppInt8 | cppInt16 | cppInt32 | cppInt64
  | cppUInt8 | cppUInt16 | cppUInt32 | cppUInt64
  | cppFloat | cppDouble
  | cppComplexFloat | cppComplexDouble
  | utf32Array (len : Nat)
deriving DecidableEq

/-- In-memory `DatasetMetadata`: the `dtype` field holds the underlying
integer value of the `types::Datatype` enum (which in C++ may lie outside
the declared enumerators); `shape` and `chunks` are opaque payload. -/
structure DatasetMetadata where
  dtype : Nat
  shape : List Nat
  chunks : List Nat
deriving DecidableEq

/-- The type-erased handle returned behind `unique_ptr<z5::Dataset>`:
it records which concrete element representation the instantiated
`Dataset<T>` carries, plus the location and metadata it was built from. -/
structure DatasetHandle where
  elemRepr : ElemRepr
  loc : Path
  metadata : DatasetMetadata
deriving DecidableEq

/-- The `switch(metadata.dtype)` of `openDataset` (factory.hxx lines 25-71):
each enumerator selects a concrete `Dataset<T>` instantiation; there is no
`default` branch, so an unmatched value leaves the pointer null (`none`). -/
def openSwitch (dtype : Nat) : Option ElemRepr :=
  if dtype = Datatype.int8.toCode then some .cppInt8
  else if dtype = Datatype.int16.toCode then some .cppInt16
  else if dtype = Datatype.int32.toCode then some .cppInt32
  else if dtype = Datatype.int64.toCode then some .cppInt64
  else if dtype = Datatype.uint8.toCode then some .cppUInt8
  else if dtype = Datatype.uint16.toCode then some .cppUInt16
  else if dtype = Datatype.uint32.toCode then some .cppUInt32
  else if dtype = Datatype.uint64.toCode then some .cppUInt64
  else if dtype = Datatype.float32.toCode then some .cppFloat
  else if dtype = Datatype.float64.toCode then some .cppDouble
  else if dtype = Datatype.complex64.toCode then some .cppComplexFloat
  else if dtype = Datatype.complex128.toCode then some .cppComplexDouble
  else if dtype = Datatype.unicode1.toCode then some (.utf32Array 1)
  else if dtype = Datatype.unicode2.toCode then some (.utf32Array 2)
  else if dtype = Datatype.unicode3.toCode then some (.utf32Array 3)
  else if dtype = Datatype.unicode4.toCode then some (.utf32Array 4)
  else if dtype = Datatype.unicode5.toCode then some (.utf32Array 5)
  else if dtype = Datatype.unicode6.toCode then some (.utf32Array 6)
  else if dtype = Datatype.unicode7.toCode then some (.utf32Array 7)
  else if dtype = Datatype.unicode8.toCode then some (.utf32Array 8)
  else if dtype = Datatype.unicode9.toCode then some (.utf32Array 9)
  else if dtype = Datatype.unicode10.toCode then some (.utf32Array 10)
  else none

/-- The `switch(metadata.dtype)` of `createDataset` (factory.hxx lines
86-132), transcribed separately from its own source text; like the open
switch it has no `default` branch. -/
def createSwitch (dtype : Nat) : Option ElemRepr :=
  if dtype = Datatype.int8.toCode then some .cppInt8
  else if dtype = Datatype.int16.toCode then some .cppInt16
  else if dtype = Datatype.int32.toCode then some .cppInt32
  else if dtype = Datatype.int64.toCode then some .cppInt64
  else if dtype = Datatype.uint8.toCode then some .cppUInt8
  else if dtype = Datatype.uint16.toCode then some .cppUInt16
  else if dtype = Datatype.uint32.toCode then some .cppUInt32
  else if dtype = Datatype.uint64.toCode then some .cppUInt64
  else if dtype = Datatype.float32.toCode then some .cppFloat
  else if dtype = Datatype.float64.toCode then some .cppDouble
  else if dtype = Datatype.complex64.toCode then some .cppComplexFloat
  else if dtype = Datatype.complex128.toCode then some .cppComplexDouble
  else if dtype = Datatype.unicode1.toCode then some (.utf32Array 1)
  else if dtype = Datatype.unicode2.toCode then some (.utf32Array 2)
  else if dtype = Datatype.unicode3.toCode then some (.utf32Array 3)
  else if dtype = Datatype.unicode4.toCode then some (.utf32Array 4)
  else if dtype = Datatype.unicode5.toCode then some (.utf32Array 5)
  else if dtype = Datatype.unicode6.toCode then some (.utf32Array 6)
  else if dtype = Datatype.unicode7.toCode then some (.utf32Array 7)
  else if dtype = Datatype.unicode8.toCode then some (.utf32Array 8)
  else if dtype = Datatype.unicode9.toCode then some (.utf32Array 9)
  else if dtype = Datatype.unicode10.toCode then some (.utf32Array 10)
  else none

/-- Element representation the specification assigns to each tag: each
numeric/complex tag denotes its fixed-width representation, and each
fixed-length-unicode tag of width N denotes a fixed-size UTF-32 array of
exactly N code units. Written from the spec's words, to be compared with
the source's two switches. -/
def specTagRepr : Datatype → ElemRepr
  | .int8 => .cppInt8
  | .int16 => .cppInt16
  | .int32 => .cppInt32
  | .int64 => .cppInt64
  | .uint8 => .cppUInt8
  | .uint16 => .cppUInt16
  | .uint32 => .cppUInt32
  | .uint64 => .cppUInt64
  | .float32 => .cppFloat
  | .float64 => .cppDouble
  | .complex64 => .cppComplexFloat
  | .complex128 => .cppComplexDouble
  | .unicode1 => .utf32Array 1
  | .unicode2 => .utf32Array 2
  | .unicode3 => .utf32Array 3
  | .unicode4 => .utf32Array 4
  | .unicode5 => .utf32Array 5
  | .unicode6 => .utf32Array 6
  | .unicode7 => .utf32Array 7
  | .unicode8 => .utf32Array 8
  | .unicode9 => .utf32Array 9
  | .unicode10 => .utf32Array 10

/-- Error taxonomy of the spec: NotFound (open on a missing location),
MalformedMetadata (persisted dtype string decodes to no tag),
StorageFailure (the storage collaborator fails). -/
inductive Z5Error
  | notFound | malformedMetadata | storageFailure
deriving DecidableEq

/-- Observable side effects performed by the entry operations, recorded as
an event trace so ordering and absence of effects are provable. -/
inductive Event
  | existsQuery (p : Path) (result : Bool)
  | createNode (p : Path)
  | metadataRead (p : Path)
  | metadataWrite (p : Path)
  | dispatch (code : Nat)
  | datasetConstruct (repr : ElemRepr)
  | groupMetadataWrite (p : Path) (isZarr : Bool)
deriving DecidableEq

/-- Persisted form of dataset metadata: the `dtype` field is stored as a
string and must be decoded back into a tag on read. -/
structure StoredMetadata where
  dtypeStr : String
  shape : List Nat
  chunks : List Nat
deriving DecidableEq

/-- Storage state: which nodes exist, the persisted dataset metadata per
path, and the flavor-tagged container metadata per path. -/
structure Store where
  nodes : List Path
  dsMeta : List (Path × StoredMetadata)
  groupMeta : List (Path × Bool)
deriving DecidableEq

/-- First binding for a path in an association list. -/
def lookupBy {α : Type} (p : Path) : List (Path × α) → Option α
  | [] => none
  | (q, a) :: rest => if q = p then some a else lookupBy p rest

/-- Modelled from the spec: `handle::Dataset::create()` / `Group::create()`
(handle implementation is outside the embedded sources). Materializes the
node; idempotent on success. -/
def Store.nodeCreate (s : Store) (p : Path) : Store :=
  if p ∈ s.nodes then s else { s with nodes := p :: s.nodes }

/-- Decoder from the persisted `dtype` string to a tag; unknown strings
decode to nothing. Modelled from the spec: the string-to-tag decoding is
performed by the metadata collaborator in `metadata.hxx`, outside the
embedded sources. -/
def parseDtype (s : String) : Option Datatype :=
  if s = "int8" then some .int8
  else if s = "int16" then some .int16
  else if s = "int32" then some .int32
  else if s = "int64" then some .int64
  else if s = "uint8" then some .uint8
  else if s = "uint16" then some .uint16
  else if s = "uint32" then some .uint32
  else if s = "uint64" then some .uint64
  else if s = "float32" then some .float32
  else if s = "float64" then some .float64
  else if s = "complex64" then some .complex64
  else if s = "complex128" then some .complex128
  else if s = "unicode1" then some .unicode1
  else if s = "unicode2" then some .unicode2
  else if s = "unicode3" then some .unicode3
  else if s = "unicode4" then some .unicode4
  else if s = "unicode5" then some .unicode5
  else if s = "unicode6" then some .unicode6
  else if s = "unicode7" then some .unicode7
  else if s = "unicode8" then some .unicode8
  else if s = "unicode9" then some .unicode9
  else if s = "unicode10" then some .unicode10
  else none

/-- Tag string written for each declared tag (inverse of `parseDtype`). -/
def dtypeName : Datatype → String
  | .int8 => "int8"
  | .int16 => "int16"
  | .int32 => "int32"
  | .int64 => "int64"
  | .uint8 => "uint8"
  | .uint16 => "uint16"
  | .uint32 => "uint32"
  | .uint64 => "uint64"
  | .float32 => "float32"
  | .float64 => "float64"
  | .complex64 => "complex64"
  | .complex128 => "complex128"
  | .unicode1 => "unicode1"
  | .unicode2 => "unicode2"
  | .unicode3 => "unicode3"
  | .unicode4 => "unicode4"
  | .unicode5 => "unicode5"
  | .unicode6 => "unicode6"
  | .unicode7 => "unicode7"
  | .unicode8 => "unicode8"
  | .unicode9 => "unicode9"
  | .unicode10 => "unicode10"

/-- Declared tag for an underlying enum value, when one exists. -/
def codeToTag (code : Nat) : Option Datatype :=
  if code = Datatype.int8.toCode then some .int8
  else if code = Datatype.int16.toCode then some .int16
  else if code = Datatype.int32.toCode then some .int32
  else if code = Datatype.int64.toCode then some .int64
  else if code = Datatype.uint8.toCode then some .uint8
  else if code = Datatype.uint16.toCode then some .uint16
  else if code = Datatype.uint32.toCode then some .uint32
  else if code = Datatype.uint64.toCode then some .uint64
  else if code = Datatype.float32.toCode then some .float32
  else if code = Datatype.float64.toCode then some .float64
  else if code = Datatype.complex64.toCode then some .complex64
  else if code = Datatype.complex128.toCode then some .complex128
  else if code = Datatype.unicode1.toCode then some .unicode1
  else if code = Datatype.unicode2.toCode then some .unicode2
  else if code = Datatype.unicode3.toCode then some .unicode3
  else if code = Datatype.unicode4.toCode then some .unicode4
  else if code = Datatype.unicode5.toCode then some .unicode5
  else if code = Datatype.unicode6.toCode then some .unicode6
  else if code = Datatype.unicode7.toCode then some .unicode7
  else if code = Datatype.unicode8.toCode then some .unicode8
  else if code = Datatype.unicode9.toCode then some .unicode9
  else if code = Datatype.unicode10.toCode then some .unicode10
  else none

/-- Modelled from the spec: serialization performed by
`writeMetadata(dataset, metadata)` in `metadata.hxx`, outside the embedded
sources. The `dtype` field is persisted as its tag string. -/
def serializeMetadata (md : DatasetMetadata) : StoredMetadata :=
  ⟨(codeToTag md.dtype).elim "" dtypeName, md.shape, md.chunks⟩

/-- Modelled from the spec: `writeMetadata(dataset, metadata)` persists the
descriptor at the location. -/
def Store.writeDatasetMetadata (s : Store) (p : Path) (md : DatasetMetadata) : Store :=
  { s with dsMeta := (p, serializeMetadata md) :: s.dsMeta }

/-- Modelled from the spec: `writeMetadata(file/group, Metadata(isZarr))`
persists a flavor-tagged container record. -/
def Store.writeGroupMetadata (s : Store) (p : Path) (isZarr : Bool) : Store :=
  { s with groupMeta := (p, isZarr) :: s.groupMeta }

/-- Modelled from the spec: `readMetadata(dataset, metadata)` in
`metadata.hxx`, outside the embedded sources. Reads the persisted record at
the location and decodes the `dtype` string; an unrecognized string fails
with MalformedMetadata, never a default tag. -/
def readMetadata (store : Store) (p : Path) : Except Z5Error DatasetMetadata :=
  match lookupBy p store.dsMeta with
  | none => .error .storageFailure
  | some sm =>
      match parseDtype sm.dtypeStr with
      | none => .error .malformedMetadata
      | some t => .ok ⟨t.toCode, sm.shape, sm.chunks⟩

/-- The dispatch section of `openDataset` (the `switch` plus the
`Dataset<T>` constructor calls): yields the possibly-null pointer and the
events it performs. -/
def openDispatchStep (p : Path) (md : DatasetMetadata) :
    Option DatasetHandle × List Event :=
  match openSwitch md.dtype with
  | some repr => (some ⟨repr, p, md⟩, [.dispatch md.dtype, .datasetConstruct repr])
  | none => (none, [.dispatch md.dtype])

/-- The dispatch section of `createDataset`, transcribed from its own
source text. -/
def createDispatchStep (p : Path) (md : DatasetMetadata) :
    Option DatasetHandle × List Event :=
  match createSwitch md.dtype with
  | some repr => (some ⟨repr, p, md⟩, [.dispatch md.dtype, .datasetConstruct repr])
  | none => (none, [.dispatch md.dtype])

/-- `openDataset` (factory.hxx lines 13-73): existence check, metadata
read, then dispatch. The result is the returned pointer (possibly null) or
the thrown error, together with the trace of performed effects. -/
def openDataset (store : Store) (p : Path) :
    Except Z5Error (Option DatasetHandle) × List Event :=
  if p ∈ store.nodes then
    match readMetadata store p with
    | .error e => (.error e, [.existsQuery p true, .metadataRead p])
    | .ok md =>
        let step := openDispatchStep p md
        (.ok step.1, [.existsQuery p true, .metadataRead p] ++ step.2)
  else
    (.error .notFound, [.existsQuery p false])

/-- `createDataset` (factory.hxx lines 77-134): `dataset.create()`, then
`writeMetadata`, then the dispatch switch builds the returned pointer. -/
def createDataset (store : Store) (p : Path) (md : DatasetMetadata) :
    Store × Option DatasetHandle × List Event :=
  let s1 := store.nodeCreate p
  let s2 := s1.writeDatasetMetadata p md
  let step := createDispatchStep p md
  (s2, step.1, [.createNode p, .metadataWrite p] ++ step.2)

/-- `createFile` (factory.hxx lines 137-142): `file.create()` then
`writeMetadata(file, Metadata(isZarr))`. -/
def createFile (store : Store) (p : Path) (isZarr : Bool) : Store × List Event :=
  ((store.nodeCreate p).writeGroupMetadata p isZarr,
   [.createNode p, .groupMetadataWrite p isZarr])

/-- `createGroup` (factory.hxx lines 145-149): `group.create()` then
`writeMetadata(group, Metadata(isZarr))`. -/
def createGroup (store : Store) (p : Path) (isZarr : Bool) : Store × List Event :=
  ((store.nodeCreate p).writeGroupMetadata p isZarr,
   [.createNode p, .groupMetadataWrite p isZarr])

/-- Handle of a group/file node, exposing only its path. -/
structure GroupHandle where
  path : Path
deriving DecidableEq

/-- Modelled from the spec: `relativeImpl` (in `util.hxx`, outside the
embedded sources) computes one path lexically relative to another: the
common prefix is dropped, any remaining components of the base become
`".."` steps, followed by the remaining components of the target. Pure, no
storage access. -/
def relativeImpl : Path → Path → Path
  | a :: as, b :: bs =>
      if a = b then relativeImpl as bs
      else List.replicate (as.length + 1) ".." ++ (b :: bs)
  | [], bs => bs
  | as, [] => List.replicate as.length ".."

/-- `relativePath` (factory.hxx lines 152-156):
`relativeImpl(g1.path(), g2.path())`. -/
def relativePath (g1 g2 : GroupHandle) : Path :=
  relativeImpl g1.path g2.path

/-- Resolving a relative path (free of `".."` steps) against a base path
appends its components. -/
def resolvePath (base rel : Path) : Path := base ++ rel

/-! Helper lemmas. -/

theorem mem_nodeCreate (s : Store) (p : Path) : p ∈ (s.nodeCreate p).nodes := by
  by_cases h : p ∈ s.nodes <;> simp [Store.nodeCreate, h]

theorem nodeCreate_dsMeta (s : Store) (p : Path) : (s.nodeCreate p).dsMeta = s.dsMeta := by
  unfold Store.nodeCreate; split <;> rfl

theorem nodeCreate_groupMeta (s : Store) (p : Path) :
    (s.nodeCreate p).groupMeta = s.groupMeta := by
  unfold Store.nodeCreate; split <;> rfl

theorem writeGroup_nodes (s : Store) (p : Path) (z : Bool) :
    (s.writeGroupMetadata p z).nodes = s.nodes := rfl

theorem writeGroup_dsMeta (s : Store) (p : Path) (z : Bool) :
    (s.writeGroupMetadata p z).dsMeta = s.dsMeta := rfl

theorem writeDs_nodes (s : Store) (p : Path) (md : DatasetMetadata) :
    (s.writeDatasetMetadata p md).nodes = s.nodes := rfl

theorem openSwitch_toCode (t : Datatype) : openSwitch t.toCode = some (specTagRepr t) := by
  cases t <;> rfl

theorem createSwitch_toCode (t : Datatype) :
    createSwitch t.toCode = some (specTagRepr t) := by
  cases t <;> rfl

theorem parse_name (t : Datatype) : parseDtype (dtypeName t) = some t := by
  cases t <;> decide

theorem codeToTag_toCode (t : Datatype) : codeToTag t.toCode = some t := by
  cases t <;> rfl

/-! Claim theorems. -/

/-- C1: for every one of the 22 element-type tags, the dispatch performed by
`openDataset` and `createDataset` constructs a dataset whose concrete
element representation matches that tag exactly (each unicode tag of width N
yields a fixed-size UTF-32 array of exactly N code units, by definition of
`specTagRepr`), and the 22 representations are pairwise distinct. -/
theorem dispatch_matches_tag :
    (∀ (t : Datatype) (p : Path) (shape chunks : List Nat),
        (openDispatchStep p ⟨t.toCode, shape, chunks⟩).1
            = some ⟨specTagRepr t, p, ⟨t.toCode, shape, chunks⟩⟩
      ∧ (createDispatchStep p ⟨t.toCode, shape, chunks⟩).1
            = some ⟨specTagRepr t, p, ⟨t.toCode, shape, chunks⟩⟩)
    ∧ Function.Injective specTagRepr := by
  refine ⟨fun t p shape chunks => ⟨?_, ?_⟩, by decide⟩
  · simp [openDispatchStep, openSwitch_toCode]
  · simp [createDispatchStep, createSwitch_toCode]

/-- C2: on a location whose existence check is false, `openDataset` fails
with NotFound, and the trace shows the existence query was its only effect:
no metadata read and no dispatch happen before the failure. -/
theorem openDataset_notFound (store : Store) (p : Path) (h : p ∉ store.nodes) :
    (openDataset store p).1 = .error .notFound
      ∧ (openDataset store p).2 = [.existsQuery p false] := by
  simp [openDataset, h]

theorem openDataset_notFound_witness :
    (openDataset ⟨[], [], []⟩ ["ds"]).1 = .error .notFound
      ∧ (openDataset ⟨[], [], []⟩ ["ds"]).2 = [.existsQuery ["ds"] false] :=
  openDataset_notFound ⟨[], [], []⟩ ["ds"] (by decide)

/-- C3: `createDataset` followed immediately by `openDataset` on the same
location yields a dataset whose metadata (in particular its `dtype`) equals
the descriptor, for every declared tag, location and prior store state. -/
theorem create_open_roundtrip (store : Store) (p : Path) (t : Datatype)
    (shape chunks : List Nat) :
    (openDataset (createDataset store p ⟨t.toCode, shape, chunks⟩).1 p).1
      = .ok (some ⟨specTagRepr t, p, ⟨t.toCode, shape, chunks⟩⟩) := by
  have hmem : p ∈ (createDataset store p ⟨t.toCode, shape, chunks⟩).1.nodes := by
    simpa [createDataset, writeDs_nodes] using mem_nodeCreate store p
  have hread : readMetadata (createDataset store p ⟨t.toCode, shape, chunks⟩).1 p
      = .ok ⟨t.toCode, shape, chunks⟩ := by
    simp [createDataset, readMetadata, Store.writeDatasetMetadata, lookupBy,
      serializeMetadata, codeToTag_toCode, parse_name]
  simp [openDataset, hmem, hread, openDispatchStep, openSwitch_toCode]

/-- C4: in every execution of `createDataset` the node creation and the
metadata write are the first two effects, in that order; every later event
is dispatch or handle construction, and the final store holds the persisted
descriptor. -/
theorem createDataset_ordering (store : Store) (p : Path) (md : DatasetMetadata) :
    (∃ tail,
        (createDataset store p md).2.2
            = Event.createNode p :: Event.metadataWrite p :: tail
      ∧ ∀ e ∈ tail, e = Event.dispatch md.dtype ∨ ∃ r, e = Event.datasetConstruct r)
    ∧ lookupBy p (createDataset store p md).1.dsMeta = some (serializeMetadata md) := by
  constructor
  · cases hsw : createSwitch md.dtype with
    | none =>
        exact ⟨[Event.dispatch md.dtype],
          by simp [createDataset, createDispatchStep, hsw], by simp⟩
    | some r =>
        exact ⟨[Event.dispatch md.dtype, Event.datasetConstruct r],
          by simp [createDataset, createDispatchStep, hsw], by simp⟩
  · simp [createDataset, Store.writeDatasetMetadata, lookupBy]

/-- C5: when the persisted `dtype` string decodes into no known tag,
`openDataset` fails with MalformedMetadata immediately after the metadata
read; the trace shows no dispatch and no handle construction, so no default
element type is ever produced. -/
theorem openDataset_malformed (store : Store) (p : Path) (sm : StoredMetadata)
    (h1 : p ∈ store.nodes) (h2 : lookupBy p store.dsMeta = some sm)
    (h3 : parseDtype sm.dtypeStr = none) :
    openDataset store p
      = (.error .malformedMetadata, [.existsQuery p true, .metadataRead p]) := by
  simp [openDataset, h1, readMetadata, h2, h3]

theorem openDataset_malformed_witness :
    openDataset ⟨[["ds"]], [(["ds"], ⟨"float33", [2], [1]⟩)], []⟩ ["ds"]
      = (.error .malformedMetadata, [.existsQuery ["ds"] true, .metadataRead ["ds"]]) :=
  openDataset_malformed _ ["ds"] ⟨"float33", [2], [1]⟩
    (by decide) (by decide) (by decide)

/-- C6: `createDataset` performs no existence query on any path: its first
effect is always the node creation, and no event of its trace is an
existence query. -/
theorem createDataset_no_exists_check (store : Store) (p : Path) (md : DatasetMetadata) :
    (createDataset store p md).2.2.head? = some (Event.createNode p)
      ∧ ∀ e ∈ (createDataset store p md).2.2, ∀ q b, e ≠ Event.existsQuery q b := by
  refine ⟨rfl, ?_⟩
  cases hsw : createSwitch md.dtype <;>
    simp [createDataset, createDispatchStep, hsw]

/-- C7: for a location nested under another, resolving `relativePath` of the
two against the ancestor's path reconstructs the nested location's path;
`relativePath` is a pure function of the two paths, touching no store. -/
theorem relativePath_resolves (g1 g2 : GroupHandle) (s : Path)
    (h : g2.path = g1.path ++ s) :
    resolvePath g1.path (relativePath g1 g2) = g2.path := by
  have happ : ∀ (A rest : Path), relativeImpl A (A ++ rest) = rest := by
    intro A
    induction A with
    | nil => intro rest; cases rest <;> rfl
    | cons a as ih => intro rest; simp [relativeImpl, ih rest]
  simp [resolvePath, relativePath, h, happ]

theorem relativePath_resolves_witness :
    (GroupHandle.mk ["root", "a", "b"]).path = (GroupHandle.mk ["root"]).path ++ ["a", "b"]
      ∧ resolvePath (GroupHandle.mk ["root"]).path
          (relativePath (GroupHandle.mk ["root"]) (GroupHandle.mk ["root", "a", "b"]))
          = (GroupHandle.mk ["root", "a", "b"]).path :=
  ⟨rfl, relativePath_resolves ⟨["root"]⟩ ⟨["root", "a", "b"]⟩ ["a", "b"] rfl⟩

/-- C8: `createGroup` and `createFile` create the container node and then
write a flavor-tagged metadata record determined by the boolean flag; no
dataset (element-typed) metadata is touched. -/
theorem createGroup_createFile_behavior (store : Store) (p : Path) (isZarr : Bool) :
    ((createGroup store p isZarr).2
        = [Event.createNode p, Event.groupMetadataWrite p isZarr]
      ∧ p ∈ (createGroup store p isZarr).1.nodes
      ∧ lookupBy p (createGroup store p isZarr).1.groupMeta = some isZarr
      ∧ (createGroup store p isZarr).1.dsMeta = store.dsMeta)
    ∧ ((createFile store p isZarr).2
        = [Event.createNode p, Event.groupMetadataWrite p isZarr]
      ∧ p ∈ (createFile store p isZarr).1.nodes
      ∧ lookupBy p (createFile store p isZarr).1.groupMeta = some isZarr
      ∧ (createFile store p isZarr).1.dsMeta = store.dsMeta) := by
  refine ⟨⟨rfl, ?_, ?_, ?_⟩, ⟨rfl, ?_, ?_, ?_⟩⟩ <;>
    simp [createGroup, createFile, Store.writeGroupMetadata, writeGroup_nodes,
      nodeCreate_dsMeta, nodeCreate_groupMeta, lookupBy, mem_nodeCreate]

/-- C9: a `dtype` value matching none of the 22 handled cases falls through
both switches (which have no default branch), so the dispatch step of
`openDataset` and the pointer returned by `createDataset` are null rather
than an error being raised. -/
theorem unmapped_code_null (code : Nat) (h : ∀ t : Datatype, code ≠ t.toCode) :
    openSwitch code = none ∧ createSwitch code = none
      ∧ (∀ (p : Path) (shape chunks : List Nat),
          (openDispatchStep p ⟨code, shape, chunks⟩).1 = none)
      ∧ ∀ (store : Store) (p : Path) (shape chunks : List Nat),
          (createDataset store p ⟨code, shape, chunks⟩).2.1 = none := by
  have ho : openSwitch code = none := by
    simp [openSwitch, h Datatype.int8, h Datatype.int16, h Datatype.int32,
      h Datatype.int64, h Datatype.uint8, h Datatype.uint16, h Datatype.uint32,
      h Datatype.uint64, h Datatype.float32, h Datatype.float64,
      h Datatype.complex64, h Datatype.complex128, h Datatype.unicode1,
      h Datatype.unicode2, h Datatype.unicode3, h Datatype.unicode4,
      h Datatype.unicode5, h Datatype.unicode6, h Datatype.unicode7,
      h Datatype.unicode8, h Datatype.unicode9, h Datatype.unicode10]
  have hc : createSwitch code = none := by
    simp [createSwitch, h Datatype.int8, h Datatype.int16, h Datatype.int32,
      h Datatype.int64, h Datatype.uint8, h Datatype.uint16, h Datatype.uint32,
      h Datatype.uint64, h Datatype.float32, h Datatype.float64,
      h Datatype.complex64, h Datatype.complex128, h Datatype.unicode1,
      h Datatype.unicode2, h Datatype.unicode3, h Datatype.unicode4,
      h Datatype.unicode5, h Datatype.unicode6, h Datatype.unicode7,
      h Datatype.unicode8, h Datatype.unicode9, h Datatype.unicode10]
  refine ⟨ho, hc, fun p shape chunks => ?_, fun store p shape chunks => ?_⟩
  · simp [openDispatchStep, ho]
  · simp [createDataset, createDispatchStep, hc]

theorem unmapped_code_null_witness :
    openSwitch 22 = none ∧ createSwitch 22 = none
      ∧ (∀ (p : Path) (shape chunks : List Nat),
          (openDispatchStep p ⟨22, shape, chunks⟩).1 = none)
      ∧ ∀ (store : Store) (p : Path) (shape chunks : List Nat),
          (createDataset store p ⟨22, shape, chunks⟩).2.1 = none :=
  unmapped_code_null 22 (by intro t; cases t <;> decide)

/-- C10: the tag-to-specialization dispatch of `openDataset` and that of
`createDataset` are identical functions: for every dtype value, location
and descriptor they build the same handle and perform the same events. -/
theorem open_create_dispatch_agree :
    openSwitch = createSwitch
      ∧ ∀ (p : Path) (md : DatasetMetadata),
          openDispatchStep p md = createDispatchStep p md :=
  ⟨rfl, fun _ _ => rfl⟩

end Z5
